import Mathlib

/-!
Verification development for the ProsportsTalents backend.

This file gives a shallow embedding of the athlete-search API
(`app/api/athletes.py`), the base-model persistence and serialization layer
(`app/models/base.py`) and the pagination helper used by them, and proves
the behavioural properties stated about them.

Modelling conventions:
* request parameters are an association list of strings, as they arrive from
  the query string; the search endpoint flattens them with
  `request.args.to_dict()` into a plain dict, so the query builder's
  `params.get(key, type=int)` calls hit the builtin `dict.get`, which takes
  no keyword arguments and raises `TypeError` - the model keeps that raise;
* the ORM query object is modelled by the list of rows it would produce,
  together with the flag recording whether a LIMIT has been applied.
  SQLAlchemy's `Query.filter` and `Query.order_by` raise
  `InvalidRequestError` when called on a query that already has a LIMIT
  applied; the model mirrors that documented contract;
* Python exceptions are modelled with `Except`: `QErr.valueError` stands for
  the `ValueError` raised by `int()` / `float()` / `date.replace`,
  `QErr.typeError` for the `TypeError` above, and `QErr.invalidRequest` for
  SQLAlchemy's `InvalidRequestError`;
* eager-loading options (`joinedload`, `subqueryload`) only affect how rows
  are fetched, not which rows are returned, and are not modelled - except
  the featured query's `subqueryload(...).filter(...)` expression, where
  the loader option has no `filter` method: that attribute access raises
  `AttributeError` and is modelled as the raise it is;
* numeric ratings and heights are integers, weights are rationals
  (`float()` is modelled on plain decimal literals).
-/

/-! ### Python-style string and number parsing -/

/-- Value of a list of ASCII digit characters, most significant first. -/
def digitsToNat (cs : List Char) : Nat :=
  cs.foldl (fun n c => n * 10 + (c.toNat - 48)) 0

/-- True when the character list is nonempty and all digits. -/
def isDigits (cs : List Char) : Bool :=
  !cs.isEmpty && cs.all Char.isDigit

/-- Python whitespace characters recognized by `strip()` / `int()`. -/
def pySpace (c : Char) : Bool :=
  c == ' ' || c == '\t' || c == '\n' || c == '\r'

/-- Python `strip()` on a character list. -/
def pyStrip (cs : List Char) : List Char :=
  ((cs.dropWhile pySpace).reverse.dropWhile pySpace).reverse

/-- Python `s.strip()`. -/
def stripStr (s : String) : String := String.mk (pyStrip s.data)

/-- Python `s.lower()` (ASCII). -/
def lowerStr (s : String) : String := String.mk (s.data.map Char.toLower)

/-- Python `s.upper()` (ASCII). -/
def upperStr (s : String) : String := String.mk (s.data.map Char.toUpper)

/-- Python `str.isdigit()` (ASCII digits). -/
def pyIsDigit (s : String) : Bool := isDigits s.data

/-- Python `int(s)`: optional sign followed by digits, surrounding
whitespace stripped; `none` models the `ValueError` on anything else. -/
def parseInt (s : String) : Option Int :=
  match pyStrip s.data with
  | '-' :: rest => if isDigits rest then some (-(digitsToNat rest : Int)) else none
  | '+' :: rest => if isDigits rest then some (digitsToNat rest : Int) else none
  | cs => if isDigits cs then some (digitsToNat cs : Int) else none

/-- Decimal-literal core of Python `float(s)`: digits with an optional
single decimal point, at least one digit overall. -/
def parseDecCore (cs : List Char) : Option ℚ :=
  match cs.span (fun c => c != '.') with
  | (ip, []) => if isDigits ip then some ((digitsToNat ip : ℚ)) else none
  | (ip, _ :: fp) =>
      if (ip.all Char.isDigit && fp.all Char.isDigit)
          && (!ip.isEmpty || !fp.isEmpty) then
        some ((digitsToNat ip : ℚ) + (digitsToNat fp : ℚ) / ((10 : ℚ) ^ fp.length))
      else none

/-- Python `float(s)` on plain decimal literals (sign, digits, optional
decimal point); `none` models the `ValueError` on anything else. -/
def parseFloat (s : String) : Option ℚ :=
  match pyStrip s.data with
  | '-' :: rest => (parseDecCore rest).map (fun q => -q)
  | '+' :: rest => parseDecCore rest
  | cs => parseDecCore cs

/-! ### SQL `LIKE` / `ILIKE` matching -/

/-- SQL `LIKE` pattern matching: `%` matches any sequence, `_` any single
character, anything else itself.  First argument is the pattern. -/
def likeMatch : List Char → List Char → Bool
  | [], [] => true
  | '%' :: ps, [] => likeMatch ps []
  | _ :: _, [] => false
  | [], _ :: _ => false
  | '%' :: ps, c :: cs => likeMatch ps (c :: cs) || likeMatch ('%' :: ps) cs
  | '_' :: ps, _ :: cs => likeMatch ps cs
  | p :: ps, c :: cs => p == c && likeMatch ps cs
termination_by p s => (p.length, s.length)

/-- SQL `ILIKE`: case-insensitive `LIKE` of the pattern against the value. -/
def ilike (v : String) (pat : String) : Bool :=
  likeMatch (lowerStr pat).data (lowerStr v).data

/-! ### Dates -/

/-- Calendar date, as Python's `datetime.date`. -/
structure Date where
  year : Int
  month : Nat
  day : Nat
deriving DecidableEq

/-- Gregorian leap-year test. -/
def isLeapYear (y : Int) : Bool :=
  (y % 4 == 0 && y % 100 != 0) || y % 400 == 0

/-- Python `d.replace(year=y)`: keeps month and day; raises `ValueError`
(modelled as `none`) when the result would be Feb 29 of a non-leap year. -/
def Date.replaceYear (d : Date) (y : Int) : Option Date :=
  if d.month == 2 && d.day == 29 && !isLeapYear y then none
  else some { d with year := y }

/-- Chronological comparison of dates (the SQL `<=` on date columns). -/
def Date.ble (a b : Date) : Bool :=
  if a.year ≠ b.year then decide (a.year < b.year)
  else if a.month ≠ b.month then decide (a.month < b.month)
  else decide (a.day ≤ b.day)

/-! ### Generic comparison and sorting

The SQL `ORDER BY` of the search query is modelled by sorting the row list
with a boolean comparison; `intListLE` is lexicographic comparison of
integer lists, used to encode the multi-column sort key. -/

/-- Lexicographic comparison of integer lists (a missing element sorts
first). -/
def intListLE : List Int → List Int → Bool
  | [], _ => true
  | _ :: _, [] => false
  | a :: as, b :: bs =>
      if a < b then true else if b < a then false else intListLE as bs

/-- Insert an element into a list so that a sorted list stays sorted for
the comparison `le`. -/
def insertLE (le : α → α → Bool) (a : α) : List α → List α
  | [] => [a]
  | b :: bs => if le a b then a :: b :: bs else b :: insertLE le a bs

/-- Sort a list by the comparison `le` (insertion sort).  Models the SQL
`ORDER BY`: rows are emitted in `le` order, ties in unspecified order. -/
def sortByLE (le : α → α → Bool) : List α → List α
  | [] => []
  | a :: as => insertLE le a (sortByLE le as)

/-! ### Data model (`app/models`)

`AthleteProfile` joined with its `User` (every profile references one user)
and outer-joined with `Sport` and `Position`; nullable columns are
`Option`s, and a SQL comparison against NULL is false. -/

/-- Row of the `Sport` lookup table. -/
structure SportRec where
  id : Int
  code : String
deriving DecidableEq

/-- Row of the `Position` lookup table. -/
structure PositionRec where
  id : Int
  code : String
  name : String
deriving DecidableEq

/-- Identity attributes of a `User` row. -/
structure UserRec where
  first_name : String
  last_name : String
deriving DecidableEq

/-- An `AthleteProfile` row together with its user and the sport/position
rows its foreign keys reference (`primary_sport_id` is the id of
`primary_sport` when present, and likewise for positions). -/
structure Athlete where
  athlete_id : Int
  user : UserRec
  primary_sport : Option SportRec
  primary_position : Option PositionRec
  current_team : Option String
  date_of_birth : Option Date
  height_cm : Option Int
  weight_kg : Option ℚ
  contract_active : Option Bool
  overall_rating : Option Int
  profile_image_url : Option String
  is_featured : Bool
  is_deleted : Bool
deriving DecidableEq

/-! ### Request parameters -/

/-- Query-string parameters, as `request.args.to_dict()` yields them. -/
abbrev Params := List (String × String)

/-- Python `params.get(key)`. -/
def pget (ps : Params) (k : String) : Option String := ps.lookup k

/-- Python `params.get(key, default)`. -/
def pgetD (ps : Params) (k d : String) : String := (pget ps k).getD d

/-- Python truthiness of an optional string (`None` and `''` are falsy). -/
def truthy (o : Option String) : Bool :=
  match o with
  | none => false
  | some s => !(s == "")

/-! ### Search filters (`AthleteSearchOptimized.build_search_query`)

Each fragment below builds the list of filter conditions the corresponding
block of the source contributes, in source order.  Fallible blocks return
`Except`: `int()`, `float()` and `date.replace` can raise `ValueError`,
and the `min_age`/`max_age` blocks call `params.get(key, type=int)` on the
plain dict the endpoint passes, which raises `TypeError` unconditionally. -/

/-- Errors a query build can raise: Python's `ValueError`, the `TypeError`
of `dict.get` called with a keyword argument, and SQLAlchemy's
`InvalidRequestError`. -/
inductive QErr where
  | valueError
  | typeError
  | invalidRequest
deriving DecidableEq

/-- The expression `params.get(key, type=int)` where `params` is the plain
dict built by `request.args.to_dict()`: the builtin `dict.get` accepts no
keyword arguments, so the call raises `TypeError` before any lookup
happens (it would be a typed lookup only on a request multidict). -/
def pgetInt (_ps : Params) (_k : String) : Except QErr (Option Int) :=
  .error .typeError

/-- Row predicates, the model of SQLAlchemy filter conditions. -/
abbrev AthletePred := Athlete → Bool

/-- Free-text condition: case-insensitive substring match of `q` against
first name, last name, concatenated full name, position name or current
team (NULL columns never match). -/
def textSearchCond (q : String) : AthletePred := fun a =>
  let pat := "%" ++ q ++ "%"
  ilike a.user.first_name pat || ilike a.user.last_name pat ||
  ilike (a.user.first_name ++ " " ++ a.user.last_name) pat ||
  (match a.primary_position with
   | some p => ilike p.name pat
   | none => false) ||
  (match a.current_team with
   | some t => ilike t pat
   | none => false)

/-- Filters from the `q` parameter (stripped; empty adds nothing). -/
def qFilters (ps : Params) : List AthletePred :=
  let q := stripStr (pgetD ps "q" "")
  if q == "" then [] else [textSearchCond q]

/-- Filters from the `sport` parameter: a digit string compares the
`primary_sport_id` foreign key, anything else the sport code (ILIKE). -/
def sportFilters (ps : Params) : List AthletePred :=
  match pget ps "sport" with
  | none => []
  | some s =>
    if s == "" then []
    else if pyIsDigit s then
      [fun a => match a.primary_sport with
                | some sp => sp.id == (digitsToNat s.data : Int)
                | none => false]
    else
      [fun a => match a.primary_sport with
                | some sp => ilike sp.code s
                | none => false]

/-- Filters from the `position` parameter: a digit string compares the
`primary_position_id` foreign key, anything else matches position code or
name. -/
def positionFilters (ps : Params) : List AthletePred :=
  match pget ps "position" with
  | none => []
  | some s =>
    if s == "" then []
    else if pyIsDigit s then
      [fun a => match a.primary_position with
                | some p => p.id == (digitsToNat s.data : Int)
                | none => false]
    else
      [fun a => match a.primary_position with
                | some p => ilike p.code s || ilike p.name ("%" ++ s ++ "%")
                | none => false]

/-- Filters from the `team` parameter. -/
def teamFilters (ps : Params) : List AthletePred :=
  match pget ps "team" with
  | none => []
  | some t =>
    if t == "" then []
    else [fun a => match a.current_team with
                   | some c => ilike c ("%" ++ t ++ "%")
                   | none => false]

/-- Filters from `min_age`: the block reads
`params.get('min_age', type=int)`, which raises `TypeError` on the plain
dict the endpoint passes, so it raises before any cutoff is computed.  The
conversion that would follow - the cutoff
`today.replace(year=today.year - min_age)` with the inclusive `<=` on the
date of birth - is kept below the raise, as in the source. -/
def minAgeFilters (today : Date) (ps : Params) : Except QErr (List AthletePred) :=
  match pgetInt ps "min_age" with
  | .error e => .error e
  | .ok none => .ok []
  | .ok (some n) =>
    match today.replaceYear (today.year - n) with
    | none => .error .valueError
    | some cutoff =>
      .ok [fun a => match a.date_of_birth with
                    | some d => Date.ble d cutoff
                    | none => false]

/-- Filters from `max_age`: as `min_age` (including the unconditional
`TypeError` of the typed `dict.get`), with the inclusive `>=` on the date
of birth. -/
def maxAgeFilters (today : Date) (ps : Params) : Except QErr (List AthletePred) :=
  match pgetInt ps "max_age" with
  | .error e => .error e
  | .ok none => .ok []
  | .ok (some n) =>
    match today.replaceYear (today.year - n) with
    | none => .error .valueError
    | some cutoff =>
      .ok [fun a => match a.date_of_birth with
                    | some d => Date.ble cutoff d
                    | none => false]

/-- Filters from `min_height`: present and nonempty triggers `int()`, which
raises on a malformed value. -/
def minHeightFilters (ps : Params) : Except QErr (List AthletePred) :=
  if truthy (pget ps "min_height") then
    match parseInt (pgetD ps "min_height" "") with
    | some n => .ok [fun a => match a.height_cm with
                             | some h => decide (n ≤ h)
                             | none => false]
    | none => .error .valueError
  else .ok []

/-- Filters from `max_height`. -/
def maxHeightFilters (ps : Params) : Except QErr (List AthletePred) :=
  if truthy (pget ps "max_height") then
    match parseInt (pgetD ps "max_height" "") with
    | some n => .ok [fun a => match a.height_cm with
                             | some h => decide (h ≤ n)
                             | none => false]
    | none => .error .valueError
  else .ok []

/-- Filters from `min_weight`: present and nonempty triggers `float()`. -/
def minWeightFilters (ps : Params) : Except QErr (List AthletePred) :=
  if truthy (pget ps "min_weight") then
    match parseFloat (pgetD ps "min_weight" "") with
    | some w => .ok [fun a => match a.weight_kg with
                             | some x => decide (w ≤ x)
                             | none => false]
    | none => .error .valueError
  else .ok []

/-- Filters from `max_weight`. -/
def maxWeightFilters (ps : Params) : Except QErr (List AthletePred) :=
  if truthy (pget ps "max_weight") then
    match parseFloat (pgetD ps "max_weight" "") with
    | some w => .ok [fun a => match a.weight_kg with
                             | some x => decide (x ≤ w)
                             | none => false]
    | none => .error .valueError
  else .ok []

/-- Filters from the named filter tab: the league tabs compare the sport
code (exact equality against the upper-cased tab), `available` requires
`contract_active IS false`; `top` adds no filter (it applies a LIMIT in
the builder itself). -/
def tabFilters (tab : String) : List AthletePred :=
  if tab == "nba" || tab == "nfl" || tab == "mlb" || tab == "nhl" then
    [fun a => match a.primary_sport with
              | some sp => sp.code == upperStr tab
              | none => false]
  else if tab == "available" then
    [fun a => a.contract_active == some false]
  else []

/-- All filter conditions of `build_search_query`, in source order; the
first error raised by an `int()` / `float()` / `date.replace` call
propagates. -/
def gatherFilters (today : Date) (ps : Params) : Except QErr (List AthletePred) :=
  let l1 := qFilters ps ++ sportFilters ps ++ positionFilters ps ++ teamFilters ps
  match minAgeFilters today ps with
  | .error e => .error e
  | .ok l2 =>
  match maxAgeFilters today ps with
  | .error e => .error e
  | .ok l3 =>
  match minHeightFilters ps with
  | .error e => .error e
  | .ok l4 =>
  match maxHeightFilters ps with
  | .error e => .error e
  | .ok l5 =>
  match minWeightFilters ps with
  | .error e => .error e
  | .ok l6 =>
  match maxWeightFilters ps with
  | .error e => .error e
  | .ok l7 => .ok (l1 ++ l2 ++ l3 ++ l4 ++ l5 ++ l6 ++ l7)

/-! ### Search ordering

`order_by(overall_rating.desc().nullslast(), User.last_name, User.first_name)`
is encoded as one lexicographic integer-list key: a null-rating level (rated
rows before NULL-rating rows), the negated rating (descending), then the
character codes of the last name, a separator smaller than every character
code, and the character codes of the first name. -/

/-- Character codes of a string, for lexicographic comparison. -/
def strCodes (s : String) : List Int := s.data.map (fun c => (c.toNat : Int))

/-- Key part for `overall_rating.desc().nullslast()`. -/
def ratingKeyPart (r : Option Int) : List Int :=
  match r with
  | some v => [0, -v]
  | none => [1, 0]

/-- Full sort key of the search ordering. -/
def athleteKeyList (a : Athlete) : List Int :=
  ratingKeyPart a.overall_rating ++ strCodes a.user.last_name ++ [-1] ++
    strCodes a.user.first_name

/-- Row comparison of the search ordering. -/
def athleteLE (a b : Athlete) : Bool :=
  intListLE (athleteKeyList a) (athleteKeyList b)

/-- Row comparison of the featured ordering
(`order_by(overall_rating.desc())`; where the database puts NULL ratings
under a bare `desc()` is dialect-dependent - the model puts them last,
and no stated property depends on the choice). -/
def featuredLE (a b : Athlete) : Bool :=
  intListLE (ratingKeyPart a.overall_rating) (ratingKeyPart b.overall_rating)

/-! ### The ORM query object -/

/-- Model of a SQLAlchemy `Query`: the rows it would produce and whether a
LIMIT has been applied. -/
structure SAQuery (α : Type) where
  rows : List α
  limited : Bool

/-- `Query.filter`: raises `InvalidRequestError` when a LIMIT has already
been applied, otherwise keeps the rows satisfying the condition. -/
def SAQuery.filterQ (q : SAQuery α) (p : α → Bool) : Except QErr (SAQuery α) :=
  if q.limited then .error .invalidRequest
  else .ok { q with rows := q.rows.filter p }

/-- `Query.order_by`: raises `InvalidRequestError` when a LIMIT has already
been applied, otherwise reorders the rows. -/
def SAQuery.orderByQ (q : SAQuery α) (le : α → α → Bool) : Except QErr (SAQuery α) :=
  if q.limited then .error .invalidRequest
  else .ok { q with rows := sortByLE le q.rows }

/-- `Query.limit(n)`. -/
def SAQuery.limitQ (q : SAQuery α) (n : Nat) : SAQuery α :=
  { rows := q.rows.take n, limited := true }

/-! ### `AthleteSearchOptimized.build_search_query` -/

/-- The search query builder: base query excluding soft-deleted rows, the
collected filter conditions combined with `and_`, the `top` tab's
`limit(10)`, and the default ordering.  Mirrors the source's call order.
Because the endpoint passes the plain dict `request.args.to_dict()`, the
`min_age` block's typed `dict.get` raises `TypeError` on every call, so
every evaluation errors inside `gatherFilters`; the tab handling, the
filter application, the ordering - and, for the `top` tab, the
`InvalidRequestError` that `filter`/`order_by` after `limit(10)` would
raise - are kept below that raise, as in the source, but are never
reached. -/
def build_search_query (today : Date) (db : List Athlete) (ps : Params) :
    Except QErr (List Athlete) :=
  let base : SAQuery Athlete :=
    { rows := db.filter (fun a => a.is_deleted == false), limited := false }
  match gatherFilters today ps with
  | .error e => .error e
  | .ok fs0 =>
    let filter_tab := lowerStr (pgetD ps "filter" "")
    let fs := fs0 ++ tabFilters filter_tab
    let query := if filter_tab == "top" then base.limitQ 10 else base
    match (if fs.isEmpty then .ok query
           else query.filterQ (fun a => fs.all (fun f => f a))) with
    | .error e => .error e
    | .ok query2 =>
      match query2.orderByQ athleteLE with
      | .error e => .error e
      | .ok query3 => .ok query3.rows

/-! ### Pagination (`query.paginate(..., error_out=False, max_per_page=100)`) -/

/-- Pagination result: the page slice and the page/per-page values actually
used. -/
structure PaginationR (α : Type) where
  items : List α
  page : Int
  per_page : Int
  total : Nat

/-- Flask-SQLAlchemy `paginate` with `error_out=False`: `per_page` is first
capped by `max_per_page`, a page below 1 falls back to 1, a per-page below
1 falls back to 20, and the slice is `rows[(page-1)*per_page :][:per_page]`. -/
def paginateQ (rows : List α) (page per_page max_per_page : Int) : PaginationR α :=
  let pp1 := min per_page max_per_page
  let p := if page < 1 then 1 else page
  let pp := if pp1 < 1 then 20 else pp1
  { items := (rows.drop ((p - 1).toNat * pp.toNat)).take pp.toNat
    page := p
    per_page := pp
    total := rows.length }

/-! ### `AthleteSearch.get` -/

/-- Python `int(value_or_default)` for an optional string parameter with an
integer default: the default when missing, and a `ValueError` (modelled as
`Except.error`) when present but malformed. -/
def parseIntOrRaise (o : Option String) (dflt : Int) : Except Unit Int :=
  match o with
  | none => .ok dflt
  | some s =>
    match parseInt s with
    | some n => .ok n
    | none => .error ()

/-- Successful search response: the paginated result rows (each serialized
with `to_dict` in the real payload) and the response metadata.  `pageEcho`
is the raw `page` value echoed in the JSON body, `pageUsed` / `perPageUsed`
are what the pagination actually used. -/
structure SearchOk where
  results : List Athlete
  total : Nat
  pageUsed : Int
  perPageUsed : Int
  pageEcho : Int
deriving DecidableEq

/-- The search endpoint handler: parses `page` (default 1) and `per_page`
(default 50, capped at 100), builds the query, paginates, and serializes.
Any exception reaches the top-level handler, which answers with the 500
error envelope - modelled as `Except.error ()`. -/
def athleteSearch (today : Date) (db : List Athlete) (ps : Params) :
    Except Unit SearchOk :=
  match parseIntOrRaise (pget ps "page") 1 with
  | .error _ => .error ()
  | .ok page =>
    match parseIntOrRaise (pget ps "per_page") 50 with
    | .error _ => .error ()
    | .ok pp0 =>
      let per_page := min pp0 100
      match build_search_query today db ps with
      | .error _ => .error ()
      | .ok rows =>
        let pg := paginateQ rows page per_page 100
        .ok { results := pg.items
              total := pg.total
              pageUsed := pg.page
              perPageUsed := pg.per_page
              pageEcho := page }

/-! ### `FeaturedAthletes.get` -/

/-- The loader-option expression
`db.subqueryload(AthleteProfile.stats).filter(AthleteStat.season == str(year))`
of the featured query: `subqueryload(...)` returns a loader option, which
has no `filter` method, so the attribute access raises `AttributeError` on
every evaluation. -/
def subqueryloadFilterOption : Except Unit Unit := .error ()

/-- Athletes the featured endpoint fetches.  The limit parameter is read
first (`request.args.get('limit', 6, type=int)` on the genuine request
multidict: default 6 when missing or unparseable, capped at 20); the query
construction then evaluates its loader options and raises
`AttributeError` at the `subqueryload(...).filter(...)` option, so the
fetch errors on every request.  The pipeline the query would otherwise run
- non-deleted featured profiles, ordered by rating descending, limited -
is kept below the raise, as in the source. -/
def featuredAthletes (db : List Athlete) (limitParam : Option String) :
    Except Unit (List Athlete) :=
  let lim : Int := min ((limitParam.bind parseInt).getD 6) 20
  match subqueryloadFilterOption with
  | .error e => .error e
  | .ok _ =>
    .ok ((sortByLE featuredLE
      (db.filter (fun a => a.is_deleted == false && a.is_featured))).take lim.toNat)

/-- Per-item serialization loop shared by the search and featured handlers:
items whose serialization raises (modelled as `none`) are logged and
skipped, the rest are appended in order. -/
def collectSerialized (f : α → Option β) : List α → List β
  | [] => []
  | a :: rest =>
    match f a with
    | some d => d :: collectSerialized f rest
    | none => collectSerialized f rest

/-- Python `"".join([n[0] for n in name.split()][:2]).upper()`. -/
def initialsOf (name : String) : String :=
  upperStr (String.mk ((((name.splitOn " ").filter (fun w => !(w == ""))).map
      (fun w => w.data.headD ' ')).take 2))

/-- One entry of the featured JSON list. -/
structure FeaturedItem where
  fid : Int
  name : String
  position : Option String
  team : String
  sport : Option String
  profile_image_url : Option String
  initials : String
  rating : Option Int
deriving DecidableEq

/-- Featured item built from an athlete row (the per-season stats list is
not modelled; `rating` mirrors the source's truthiness test, under which a
rating of 0 serializes as null). -/
def buildFeaturedItem (a : Athlete) : Option FeaturedItem :=
  let name := a.user.first_name ++ " " ++ a.user.last_name
  some { fid := a.athlete_id
         name := name
         position := a.primary_position.map (fun p => p.code)
         team := a.current_team.getD "Free Agent"
         sport := a.primary_sport.map (fun s => s.code)
         profile_image_url := a.profile_image_url
         initials := initialsOf name
         rating := match a.overall_rating with
                   | some v => if v == 0 then none else some v
                   | none => none }

/-- The featured endpoint's response body: the 500 error envelope when the
fetch raises (it always does), otherwise the per-item serialization loop
over the fetched rows. -/
def featuredPayload (db : List Athlete) (limitParam : Option String) :
    Except Unit (List FeaturedItem) :=
  match featuredAthletes db limitParam with
  | .error e => .error e
  | .ok l => .ok (collectSerialized buildFeaturedItem l)

/-! ### `BaseModel.delete` -/

/-- A persisted row as `BaseModel.delete` sees it: its identity, whether
the model class has an `is_deleted` attribute, and the flag value. -/
structure DbRec where
  rid : Int
  hasIsDeleted : Bool
  is_deleted : Bool
deriving DecidableEq

/-- `BaseModel.delete(soft=...)` acting on the table containing the row:
with `soft` (the default) and an `is_deleted` attribute the row is kept and
its flag set; otherwise `session.delete` removes the row. -/
def BaseModel.delete (soft : Bool) (r : DbRec) (table : List DbRec) : List DbRec :=
  if soft && r.hasIsDeleted then
    table.map (fun x => if x.rid == r.rid then { x with is_deleted := true } else x)
  else
    table.filter (fun x => !(x.rid == r.rid))

/-! ### `BaseModel.to_dict` -/

/-- JSON-like values produced by serialization. -/
inductive JValue where
  | jnull : JValue
  | jbool : Bool → JValue
  | jint : Int → JValue
  | jstr : String → JValue
  | jlist : List JValue → JValue
  | jdict : List (String × JValue) → JValue

/-- The serialized mapping: a Python dict with string keys. -/
abbrev JDict := List (String × JValue)

/-- Python dict assignment `d[k] = v`: replaces the binding of `k` when
present, appends otherwise. -/
def dictSet (d : JDict) (k : String) (v : JValue) : JDict :=
  match d with
  | [] => [(k, v)]
  | (k', v') :: rest =>
    if k' == k then (k, v) :: rest else (k', v') :: dictSet rest k v

/-- Column values a row can hold; `cDateTime` carries the textual form
`isoformat()` would produce. -/
inductive ColVal where
  | cNull : ColVal
  | cBool : Bool → ColVal
  | cInt : Int → ColVal
  | cStr : String → ColVal
  | cDateTime : String → ColVal
deriving DecidableEq

/-- Column serialization: scalars copied, datetimes to their ISO text. -/
def serializeCol : ColVal → JValue
  | .cNull => .jnull
  | .cBool b => .jbool b
  | .cInt n => .jint n
  | .cStr s => .jstr s
  | .cDateTime iso => .jstr iso

/-- The column loop of `to_dict`: `data[column.name] = value` over the
table's columns. -/
def serializeCols (cols : List (String × ColVal)) : JDict :=
  cols.foldl (fun d p => dictSet d p.1 (serializeCol p.2)) []

/-- A related entity as the relationship loop sees it: whether it has a
`to_dict` method, the columns its own (one-level, no further expansion)
`to_dict` would serialize, and its `str()` form. -/
structure RelatedEnt where
  hasToDict : Bool
  columns : List (String × ColVal)
  strRepr : String

/-- Value of a relationship attribute: a scalar relationship (`uselist`
false) holding an optional row, or a collection. -/
inductive RelVal where
  | single : Option RelatedEnt → RelVal
  | collection : List RelatedEnt → RelVal

/-- One relationship of the mapper: its key and the outcome of reading the
attribute (`getattr` can raise, e.g. on a failed lazy load). -/
structure RelEnd where
  key : String
  fetch : Except Unit RelVal

/-- An entity as `to_dict` sees it: the outcome of building the column
values (the column loop can raise as a whole) and the mapper's
relationships. -/
structure Entity where
  columnsFetch : Except Unit (List (String × ColVal))
  relationships : List RelEnd

/-- Serialization of a related entity inside the relationship loop:
`item.to_dict() if hasattr(item, 'to_dict') else str(item)`. -/
def relatedToDict (r : RelatedEnt) : JValue :=
  if r.hasToDict then .jdict (serializeCols r.columns) else .jstr r.strRepr

/-- One iteration of the relationship loop: a raising read is caught and
stores `None` under the key; a falsy value (`None` or an empty collection)
stores nothing; otherwise the expanded object or list of objects is
stored. -/
def relStep (d : JDict) (r : RelEnd) : JDict :=
  match r.fetch with
  | .error _ => dictSet d r.key JValue.jnull
  | .ok (.single none) => d
  | .ok (.single (some x)) => dictSet d r.key (relatedToDict x)
  | .ok (.collection []) => d
  | .ok (.collection (x :: xs)) =>
      dictSet d r.key (JValue.jlist ((x :: xs).map relatedToDict))

/-- `BaseModel.to_dict(include_relationships=...)`: builds the column
mapping, optionally expands each relationship one level, and never lets an
exception escape - a failure of the column loop yields the empty mapping,
a failure inside one relationship yields `None` for that key. -/
def BaseModel.to_dict (e : Entity) (include_relationships : Bool) : JDict :=
  match e.columnsFetch with
  | .error _ => []
  | .ok cols =>
    let data := serializeCols cols
    if include_relationships then e.relationships.foldl relStep data else data

/-! ### Concrete inputs used by witnesses and counterexamples -/

/-- A fixed current date. -/
def today₀ : Date := { year := 2024, month := 6, day := 15 }

/-- A non-deleted athlete row. -/
def athlete₁ : Athlete :=
  { athlete_id := 1
    user := { first_name := "Ann", last_name := "Lee" }
    primary_sport := some { id := 2, code := "NBA" }
    primary_position := some { id := 3, code := "PG", name := "Point Guard" }
    current_team := some "Hawks"
    date_of_birth := some { year := 1994, month := 6, day := 15 }
    height_cm := some 188
    weight_kg := some 82
    contract_active := some true
    overall_rating := some 91
    profile_image_url := none
    is_featured := true
    is_deleted := false }

/-- A second, lower-rated, non-deleted featured athlete row. -/
def athlete₂ : Athlete :=
  { athlete_id := 2
    user := { first_name := "Bo", last_name := "Kim" }
    primary_sport := none
    primary_position := none
    current_team := none
    date_of_birth := none
    height_cm := none
    weight_kg := none
    contract_active := some false
    overall_rating := some 55
    profile_image_url := none
    is_featured := true
    is_deleted := false }

/-- A soft-deleted athlete row. -/
def athlete₃ : Athlete :=
  { athlete₂ with athlete_id := 3, overall_rating := some 99, is_deleted := true }

/-- A small database containing a soft-deleted row. -/
def db₀ : List Athlete := [athlete₁, athlete₂, athlete₃]

/-- A relationship whose attribute read raises. -/
def relUser : RelEnd := { key := "user", fetch := .error () }

/-- An entity whose `user` relationship read raises; its columns load
fine. -/
def entity₁ : Entity :=
  { columnsFetch := .ok [("id", ColVal.cInt 1), ("email", ColVal.cStr "a@b.c")]
    relationships := [relUser] }

/-- A related row without a `to_dict` method. -/
def sportEnt : RelatedEnt :=
  { hasToDict := false, columns := [], strRepr := "<Sport NBA>" }

/-- A related row with a `to_dict` method. -/
def statEnt : RelatedEnt :=
  { hasToDict := true, columns := [("v", ColVal.cInt 3)], strRepr := "<Stat 1>" }

/-- A scalar relationship holding `sportEnt`. -/
def relSport : RelEnd := { key := "sport", fetch := .ok (RelVal.single (some sportEnt)) }

/-- A collection relationship holding `statEnt`. -/
def relStats : RelEnd := { key := "stats", fetch := .ok (RelVal.collection [statEnt]) }

/-- An entity whose relationships load fine: a scalar relationship to a
row without `to_dict` and a collection relationship. -/
def entity₂ : Entity :=
  { columnsFetch := .ok [("id", ColVal.cInt 7)]
    relationships := [relSport, relStats] }

/-- An entity whose column loop raises. -/
def entity₃ : Entity :=
  { columnsFetch := .error ()
    relationships := [] }

/-- A row carrying the soft-delete flag, and a table around it. -/
def rec₁ : DbRec := { rid := 5, hasIsDeleted := true, is_deleted := false }

/-- A second row of the table. -/
def rec₂ : DbRec := { rid := 6, hasIsDeleted := true, is_deleted := false }

/-- The table used by the deletion witness. -/
def table₀ : List DbRec := [rec₁, rec₂]

/-! ### Lemmas about the serialization loop -/

/-- The per-item loop distributes over concatenation. -/
theorem collectSerialized_append (f : α → Option β) :
    ∀ (l₁ l₂ : List α),
      collectSerialized f (l₁ ++ l₂) =
        collectSerialized f l₁ ++ collectSerialized f l₂ := by
  intro l₁ l₂
  induction l₁ with
  | nil => rfl
  | cons a as ih =>
    simp only [List.cons_append, collectSerialized]
    cases f a <;> simp [ih]

/-- Whatever serializes successfully appears in the loop's output. -/
theorem mem_collectSerialized {f : α → Option β} {b : α} {d : β} :
    ∀ {l : List α}, b ∈ l → f b = some d → d ∈ collectSerialized f l := by
  intro l
  induction l with
  | nil => intro h _; cases h
  | cons a as ih =>
    intro hmem hfb
    rcases List.mem_cons.mp hmem with heq | h'
    · rw [heq] at hfb; simp [collectSerialized, hfb]
    · simp only [collectSerialized]
      cases f a <;> simp [ih h' hfb]

/-! ### Lemmas about dictionary building -/

/-- Looking up the key just set. -/
theorem lookup_dictSet_self (k : String) (v : JValue) :
    ∀ (d : JDict), (dictSet d k v).lookup k = some v := by
  intro d
  induction d with
  | nil => simp [dictSet, List.lookup]
  | cons p rest ih =>
    obtain ⟨k', v'⟩ := p
    by_cases h : k' = k
    · simp [dictSet, h, List.lookup]
    · have hbe : (k' == k) = false := beq_eq_false_iff_ne.mpr h
      have hke : (k == k') = false := beq_eq_false_iff_ne.mpr (Ne.symm h)
      simp [dictSet, hbe, List.lookup, hke, ih]

/-- Setting one key leaves the others' lookups unchanged. -/
theorem lookup_dictSet_ne {k k₂ : String} (h : k₂ ≠ k) (v : JValue) :
    ∀ (d : JDict), (dictSet d k v).lookup k₂ = d.lookup k₂ := by
  intro d
  induction d with
  | nil => simp [dictSet, List.lookup, beq_eq_false_iff_ne.mpr h]
  | cons p rest ih =>
    obtain ⟨k', v'⟩ := p
    by_cases hk : k' = k
    · subst hk
      simp [dictSet, List.lookup, beq_eq_false_iff_ne.mpr h]
    · have hbe : (k' == k) = false := beq_eq_false_iff_ne.mpr hk
      cases hbe2 : k₂ == k' <;> simp [dictSet, hbe, List.lookup, hbe2, ih]

/-- A relationship-loop step with a key different from `k` leaves the
lookup of `k` unchanged. -/
theorem lookup_relStep_ne {k : String} {r : RelEnd} (h : r.key ≠ k) (d : JDict) :
    (relStep d r).lookup k = d.lookup k := by
  unfold relStep
  cases r.fetch with
  | error u => exact lookup_dictSet_ne (Ne.symm h) _ _
  | ok rv =>
    cases rv with
    | single o =>
      cases o with
      | none => rfl
      | some x => exact lookup_dictSet_ne (Ne.symm h) _ _
    | collection xs =>
      cases xs with
      | nil => rfl
      | cons x tl => exact lookup_dictSet_ne (Ne.symm h) _ _

/-- The relationship loop over keys different from `k` leaves the lookup of
`k` unchanged. -/
theorem lookup_foldl_relStep_ne {k : String} :
    ∀ (rels : List RelEnd) (d : JDict), (∀ r ∈ rels, r.key ≠ k) →
      (rels.foldl relStep d).lookup k = d.lookup k := by
  intro rels
  induction rels with
  | nil => intro d _; rfl
  | cons r rs ih =>
    intro d h
    simp only [List.foldl_cons]
    rw [ih _ (fun r' hr' => h r' (List.mem_cons_of_mem _ hr')),
      lookup_relStep_ne (h r (List.mem_cons_self _ _)) d]

/-- After the relationship loop, a relationship whose step stored `v` under
its key (no later relationship reusing the key) looks up to `v`. -/
theorem lookup_foldl_relStep_set (d : JDict) (l1 l2 : List RelEnd) (r : RelEnd)
    (v : JValue)
    (hset : ∀ d' : JDict, relStep d' r = dictSet d' r.key v)
    (h2 : ∀ r' ∈ l2, r'.key ≠ r.key) :
    ((l1 ++ r :: l2).foldl relStep d).lookup r.key = some v := by
  rw [List.foldl_append]
  simp only [List.foldl_cons]
  rw [lookup_foldl_relStep_ne l2 _ h2, hset, lookup_dictSet_self]

/-- Splitting a list at a member whose key is unique. -/
theorem nodup_split_keys {σ : Type} (kf : σ → String) :
    ∀ {l : List σ} {x : σ}, x ∈ l → (l.map kf).Nodup →
      ∃ s t, l = s ++ x :: t ∧ ∀ y ∈ t, kf y ≠ kf x := by
  intro l x hmem hnd
  obtain ⟨s, t, rfl⟩ := List.append_of_mem hmem
  refine ⟨s, t, rfl, ?_⟩
  have hnd2 : (kf x :: t.map kf).Nodup := by
    refine List.Nodup.sublist ?_ hnd
    rw [List.map_append, List.map_cons]
    exact List.sublist_append_right _ _
  have hnotmem : kf x ∉ t.map kf := (List.nodup_cons.mp hnd2).1
  intro y hy hkeq
  exact hnotmem (hkeq ▸ List.mem_map_of_mem kf hy)

/-- The column loop over names different from `k` leaves the lookup of `k`
unchanged. -/
theorem lookup_foldl_colStep_ne {k : String} :
    ∀ (cols : List (String × ColVal)) (d : JDict), (∀ p ∈ cols, p.1 ≠ k) →
      (cols.foldl (fun d' p => dictSet d' p.1 (serializeCol p.2)) d).lookup k =
        d.lookup k := by
  intro cols
  induction cols with
  | nil => intro d _; rfl
  | cons c cs ih =>
    intro d h
    simp only [List.foldl_cons]
    rw [ih _ (fun p hp => h p (List.mem_cons_of_mem _ hp)),
      lookup_dictSet_ne (Ne.symm (h c (List.mem_cons_self _ _))) _ _]

/-- With distinct column names, the column loop serializes each column
under its name. -/
theorem lookup_serializeCols {cols : List (String × ColVal)}
    {p : String × ColVal} (hmem : p ∈ cols)
    (hnd : (cols.map Prod.fst).Nodup) :
    (serializeCols cols).lookup p.1 = some (serializeCol p.2) := by
  obtain ⟨c1, c2, rfl, hne⟩ := nodup_split_keys Prod.fst hmem hnd
  unfold serializeCols
  rw [List.foldl_append]
  simp only [List.foldl_cons]
  rw [lookup_foldl_colStep_ne c2 _ hne, lookup_dictSet_self]

/-- Claim C1 (amended): a malformed `page` or `per_page` value makes the
`int()` conversion raise; the top-level handler catches it and returns the
500 error envelope (it does not fall back to the defaults). -/
theorem malformed_page_params_return_error_envelope (today : Date)
    (db : List Athlete) (ps : Params) (s : String) :
    (pget ps "page" = some s → parseInt s = none →
      athleteSearch today db ps = .error ()) ∧
    (pget ps "per_page" = some s → parseInt s = none →
      athleteSearch today db ps = .error ()) := by
  constructor
  · intro hs hbad
    unfold athleteSearch
    rw [hs]
    simp [parseIntOrRaise, hbad]
  · intro hs hbad
    unfold athleteSearch
    cases h1 : parseIntOrRaise (pget ps "page") 1 with
    | error u => rfl
    | ok page =>
      rw [hs]
      simp [parseIntOrRaise, hbad]

/-- Claim C1 (counterexample): a malformed, non-integer `page` makes the
search return the 500 error envelope, not a paginated result with the
default page. -/
theorem malformed_page_counterexample :
    parseInt "abc" = none ∧
    athleteSearch today₀ db₀ [("page", "abc")] = .error () := by
  constructor
  · rfl
  · rfl

/-- Claim C2 (code behaviour at the failing input): a request with the
`top` filter tab never reaches the `limit(10)` cap - like every search
request it raises `TypeError` at the `min_age` block
(`params.get('min_age', type=int)` on the plain dict the endpoint passes),
and the endpoint answers with the 500 error envelope instead of a capped
result list. -/
theorem top_filter_request_errors :
    minAgeFilters today₀ [("filter", "top")] = .error QErr.typeError ∧
    build_search_query today₀ db₀ [("filter", "top")] = .error QErr.typeError ∧
    athleteSearch today₀ db₀ [("filter", "top")] = .error () :=
  ⟨rfl, rfl, rfl⟩

/-- Claim C3 (code behaviour at the failing inputs): the exclusion of
soft-deleted rows is written into both base queries, but no result list is
ever produced against which to state it - a search request raises
`TypeError` at the `min_age` block and a featured request raises
`AttributeError` at the `subqueryload(...).filter(...)` option; both
endpoints answer with the 500 error envelope (the database here contains a
soft-deleted row). -/
theorem search_and_featured_produce_no_lists :
    athleteSearch today₀ db₀ [] = .error () ∧
    featuredAthletes db₀ (some "6") = .error () :=
  ⟨rfl, rfl⟩

/-- Claim C4 (code behaviour at the failing input): `page` and `per_page`
parse fine (so the failure is not theirs), and `per_page` would be clamped
by `min(..., 100)` - but the request then raises `TypeError` at the
`min_age` block before the pagination runs, so the clamped values are
never served and the 500 error envelope is returned. -/
theorem clamped_pagination_never_served :
    parseIntOrRaise (pget [("per_page", "250"), ("page", "0")] "page") 1 = .ok 0 ∧
    parseIntOrRaise (pget [("per_page", "250"), ("page", "0")] "per_page") 50 = .ok 250 ∧
    athleteSearch today₀ db₀ [("per_page", "250"), ("page", "0")] = .error () :=
  ⟨rfl, rfl, rfl⟩

/-- Claim C5 (code behaviour at the failing input): the line that would
convert `min_age` to a birth-date cutoff is `params.get('min_age',
type=int)`, which raises `TypeError` on the plain dict on every request -
no cutoff is ever computed and no result set produced, even though the
database holds a profile born exactly on the would-be cutoff. -/
theorem age_cutoff_never_computed :
    minAgeFilters today₀ [("min_age", "30")] = .error QErr.typeError ∧
    gatherFilters today₀ [("min_age", "30")] = .error QErr.typeError ∧
    athleteSearch today₀ db₀ [("min_age", "30")] = .error () :=
  ⟨rfl, rfl, rfl⟩

/-- Claim C6 (code behaviour at the failing input): the `order_by` is the
last step of the query build, but every build aborts with `TypeError` at
the `min_age` block before reaching it, so no ordered result set ever
exists and the endpoint returns the 500 error envelope. -/
theorem ordering_never_reached :
    build_search_query today₀ db₀ [] = .error QErr.typeError ∧
    athleteSearch today₀ db₀ [] = .error () :=
  ⟨rfl, rfl⟩

/-- Claim C7: for a row whose model carries the soft-delete flag, deleting
with `soft=True` (the default) keeps the table size, marks the row's flag
instead of removing it, and the row is removed exactly by an explicit hard
delete. -/
theorem soft_delete_marks_hard_delete_removes (r : DbRec) (tbl : List DbRec)
    (hflag : r.hasIsDeleted = true) (hmem : r ∈ tbl) :
    (BaseModel.delete true r tbl).length = tbl.length ∧
    { r with is_deleted := true } ∈ BaseModel.delete true r tbl ∧
    BaseModel.delete false r tbl = tbl.filter (fun x => !(x.rid == r.rid)) := by
  have hsoft : BaseModel.delete true r tbl =
      tbl.map (fun x => if x.rid == r.rid then { x with is_deleted := true } else x) := by
    unfold BaseModel.delete
    rw [hflag]
    rfl
  refine ⟨?_, ?_, ?_⟩
  · rw [hsoft]
    exact List.length_map tbl _
  · rw [hsoft]
    exact List.mem_map.mpr ⟨r, hmem, by simp⟩
  · simp [BaseModel.delete]

/-- Claim C8: in the per-item serialization loop of the search and featured
handlers, an item whose serialization raises is skipped while every other
item still serializes into the response, in order. -/
theorem per_item_failure_isolated {α β : Type} (f : α → Option β)
    (xs ys : List α) (a : α) (hfail : f a = none) :
    collectSerialized f (xs ++ a :: ys) =
      collectSerialized f xs ++ collectSerialized f ys ∧
    ∀ b d, b ∈ xs ++ a :: ys → f b = some d →
      d ∈ collectSerialized f (xs ++ a :: ys) := by
  constructor
  · rw [collectSerialized_append]
    simp [collectSerialized, hfail]
  · intro b d hb hf
    exact mem_collectSerialized hb hf

/-- Claim C9 (counterexample): when reading the `user` relationship raises,
`to_dict` stores `None` under the key - not the string representation of
the related entity the claim promises. -/
theorem relationship_failure_yields_null_counterexample :
    (BaseModel.to_dict entity₁ true).lookup "user" = some JValue.jnull ∧
    (BaseModel.to_dict entity₁ true).lookup "user" ≠ some (JValue.jstr "<User 1>") := by
  constructor
  · rfl
  · intro h
    rw [show (BaseModel.to_dict entity₁ true).lookup "user" = some JValue.jnull
      from rfl] at h
    simp at h

/-- With a loaded column mapping and distinct relationship keys, a
relationship whose loop step stores `v` under its key looks up to `v` in
the final serialization. -/
theorem lookup_to_dict_rel (e : Entity) (cols : List (String × ColVal))
    (hc : e.columnsFetch = .ok cols)
    (hnd : (e.relationships.map RelEnd.key).Nodup)
    (r : RelEnd) (hr : r ∈ e.relationships) (v : JValue)
    (hset : ∀ d' : JDict, relStep d' r = dictSet d' r.key v) :
    (BaseModel.to_dict e true).lookup r.key = some v := by
  obtain ⟨l1, l2, hsplit, hne⟩ := nodup_split_keys RelEnd.key hr hnd
  have htd : BaseModel.to_dict e true =
      (l1 ++ r :: l2).foldl relStep (serializeCols cols) := by
    unfold BaseModel.to_dict
    rw [hc, hsplit]
    rfl
  rw [htd]
  exact lookup_foldl_relStep_set _ l1 l2 r _ hset hne

/-- Claim C9 (amended): with relationship expansion enabled, each present
relationship expands one level to an object or a list of objects; a related
entity without a `to_dict` method falls back to its string representation,
and a relationship whose expansion raises falls back to `None` for that
key. -/
theorem relationships_expanded_with_fallbacks (e : Entity)
    (cols : List (String × ColVal)) (hc : e.columnsFetch = .ok cols)
    (hnd : (e.relationships.map RelEnd.key).Nodup) :
    ∀ r ∈ e.relationships,
      (∀ x, r.fetch = .ok (.single (some x)) →
        (BaseModel.to_dict e true).lookup r.key = some (relatedToDict x)) ∧
      (∀ x xs, r.fetch = .ok (.collection (x :: xs)) →
        (BaseModel.to_dict e true).lookup r.key =
          some (JValue.jlist ((x :: xs).map relatedToDict))) ∧
      (∀ u, r.fetch = .error u →
        (BaseModel.to_dict e true).lookup r.key = some JValue.jnull) ∧
      (∀ x : RelatedEnt, relatedToDict x =
        if x.hasToDict then JValue.jdict (serializeCols x.columns)
        else JValue.jstr x.strRepr) := by
  intro r hr
  refine ⟨?_, ?_, ?_, fun x => rfl⟩
  · intro x hf
    exact lookup_to_dict_rel e cols hc hnd r hr _ (fun d' => by simp [relStep, hf])
  · intro x xs hf
    exact lookup_to_dict_rel e cols hc hnd r hr _ (fun d' => by simp [relStep, hf])
  · intro u hf
    exact lookup_to_dict_rel e cols hc hnd r hr _ (fun d' => by simp [relStep, hf])

/-- Claim C10: `to_dict` is total by construction - no exception reaches
its caller; a failure while building the column mapping yields the empty
mapping, and a failing relationship expansion yields `None` for that key
while the column entries are still returned. -/
theorem to_dict_total_with_fallbacks (e : Entity) (inc : Bool) :
    (∀ u, e.columnsFetch = .error u → BaseModel.to_dict e inc = []) ∧
    (∀ cols, e.columnsFetch = .ok cols →
      ((e.relationships.map RelEnd.key).Nodup →
        ∀ r ∈ e.relationships, ∀ u, r.fetch = .error u →
          (BaseModel.to_dict e true).lookup r.key = some JValue.jnull) ∧
      ((cols.map Prod.fst).Nodup →
        ∀ p ∈ cols, (∀ r ∈ e.relationships, r.key ≠ p.1) →
          (BaseModel.to_dict e true).lookup p.1 = some (serializeCol p.2))) := by
  constructor
  · intro u hu
    unfold BaseModel.to_dict
    rw [hu]
  · intro cols hc
    constructor
    · intro hnd r hr u hf
      exact lookup_to_dict_rel e cols hc hnd r hr _ (fun d' => by simp [relStep, hf])
    · intro hnd p hp hkeys
      unfold BaseModel.to_dict
      rw [hc]
      show List.lookup p.1 (e.relationships.foldl relStep (serializeCols cols)) =
        some (serializeCol p.2)
      rw [lookup_foldl_relStep_ne _ _ (fun r hr => hkeys r hr)]
      exact lookup_serializeCols hp hnd

/-! ### Witnesses: the claim theorems applied at concrete inputs -/

/-- Claim C1 (witness): the amended statement at a concrete request with a
malformed `per_page`. -/
theorem malformed_page_params_witness :
    athleteSearch today₀ db₀ [("per_page", "5x")] = .error () :=
  (malformed_page_params_return_error_envelope today₀ db₀
    [("per_page", "5x")] "5x").2 rfl rfl

/-- Claim C7 (witness): the deletion theorem at a concrete two-row table. -/
theorem soft_delete_witness :
    (BaseModel.delete true rec₁ table₀).length = table₀.length ∧
    { rec₁ with is_deleted := true } ∈ BaseModel.delete true rec₁ table₀ ∧
    BaseModel.delete false rec₁ table₀ =
      table₀.filter (fun x => !(x.rid == rec₁.rid)) :=
  soft_delete_marks_hard_delete_removes rec₁ table₀ rfl (by simp [table₀])

/-- Claim C8 (witness): a concrete batch where the middle item fails to
serialize - the two others still appear. -/
theorem per_item_failure_witness :
    collectSerialized (fun n : Nat => if n == 0 then none else some (2 * n))
        ([1] ++ 0 :: [3]) =
      collectSerialized (fun n : Nat => if n == 0 then none else some (2 * n)) [1] ++
      collectSerialized (fun n : Nat => if n == 0 then none else some (2 * n)) [3] ∧
    (6 : Nat) ∈ collectSerialized
        (fun n : Nat => if n == 0 then none else some (2 * n)) ([1] ++ 0 :: [3]) := by
  constructor
  · exact (per_item_failure_isolated
      (fun n : Nat => if n == 0 then none else some (2 * n)) [1] [3] 0 rfl).1
  · exact (per_item_failure_isolated
      (fun n : Nat => if n == 0 then none else some (2 * n)) [1] [3] 0 rfl).2
      3 6 (by simp) rfl

/-- Claim C9 (witness): on a concrete entity, the scalar relationship to a
row without `to_dict` serializes to its string form and the collection
relationship to a list of expanded objects. -/
theorem relationships_expanded_witness :
    (BaseModel.to_dict entity₂ true).lookup "sport" =
      some (JValue.jstr "<Sport NBA>") ∧
    (BaseModel.to_dict entity₂ true).lookup "stats" =
      some (JValue.jlist [JValue.jdict [("v", JValue.jint 3)]]) := by
  constructor
  · have h := (relationships_expanded_with_fallbacks entity₂
      [("id", ColVal.cInt 7)] rfl (by decide) relSport
      (by simp [entity₂])).1 sportEnt rfl
    rw [show relSport.key = "sport" from rfl] at h
    rw [h]
    rfl
  · have h := (relationships_expanded_with_fallbacks entity₂
      [("id", ColVal.cInt 7)] rfl (by decide) relStats
      (by simp [entity₂])).2.1 statEnt [] rfl
    rw [show relStats.key = "stats" from rfl] at h
    rw [h]
    rfl

/-- Claim C10 (witness): a failing column loop yields the empty mapping; on
an entity with one failing relationship the key holds `None` and the
columns are still present. -/
theorem to_dict_total_witness :
    BaseModel.to_dict entity₃ false = [] ∧
    (BaseModel.to_dict entity₁ true).lookup "user" = some JValue.jnull ∧
    (BaseModel.to_dict entity₁ true).lookup "id" = some (JValue.jint 1) := by
  refine ⟨?_, ?_, ?_⟩
  · exact (to_dict_total_with_fallbacks entity₃ false).1 () rfl
  · exact ((to_dict_total_with_fallbacks entity₁ true).2
      [("id", ColVal.cInt 1), ("email", ColVal.cStr "a@b.c")] rfl).1
      (by decide) relUser (by simp [entity₁]) () rfl
  · exact ((to_dict_total_with_fallbacks entity₁ true).2
      [("id", ColVal.cInt 1), ("email", ColVal.cStr "a@b.c")] rfl).2
      (by decide) ("id", ColVal.cInt 1) (by simp) (by decide)
